import Mathlib

/-!
Shallow embedding of the decision logic of the warehouse cold-storage
monitoring repository, and proofs about it.

Numeric readings (temperatures, humidities, scores, costs) are modelled as
rationals: every arithmetic operation the embedded code performs is +, -, *,
/, comparison and rounding, all exact over ℚ.  The only non-rational
operations in the source are `sqrt` (inside pandas `.std()`, used exclusively
in threshold comparisons, which we embed through the equivalent squared
thresholds) and `sin` (the generator's daily bias, modelled as an explicit
input).  Python's `round(x, n)` rounds half to even; `pyRound1`/`pyRound2`
below reproduce that exactly.

Source files embedded:
  * `src/pages/Overview.py` — alert classifier (`apply_custom_alert_logic`,
    inner `calculate_alert_status`), performance scorer
    (`calculate_zone_performance_score`).
  * `src/pages/overview.py` (cost dashboard variant) — cost estimator
    (`calculate_cost_impact_metrics`, maintenance-cost branch).
  * `src/pages/Z1-Freezer.py`, `src/pages/Z4-Pharma.py` — per-zone copies of
    the classifier.
  * `src/live_data_generator.py` — `generate_realistic_value`,
    `generate_data`, with every random draw made an explicit input.
-/

/-- Python `round` to an integer, rounding half to even (banker's rounding). -/
def halfEven (y : ℚ) : ℤ :=
  if y - ⌊y⌋ < 1/2 then ⌊y⌋
  else if 1/2 < y - ⌊y⌋ then ⌊y⌋ + 1
  else if ⌊y⌋ % 2 = 0 then ⌊y⌋ else ⌊y⌋ + 1

/-- Python `round(x, 1)`. -/
def pyRound1 (x : ℚ) : ℚ := (halfEven (x * 10) : ℚ) / 10

/-- Python `round(x, 2)`. -/
def pyRound2 (x : ℚ) : ℚ := (halfEven (x * 100) : ℚ) / 100

theorem halfEven_ge_floor (y : ℚ) : ⌊y⌋ ≤ halfEven y := by
  unfold halfEven
  split_ifs <;> omega

theorem halfEven_le_floor_add_one (y : ℚ) : halfEven y ≤ ⌊y⌋ + 1 := by
  unfold halfEven
  split_ifs <;> omega

theorem abs_halfEven_sub (y : ℚ) : |(halfEven y : ℚ) - y| ≤ 1/2 := by
  have hf : (⌊y⌋ : ℚ) ≤ y := Int.floor_le y
  have hf' : y < ⌊y⌋ + 1 := Int.lt_floor_add_one y
  rw [abs_le]
  unfold halfEven
  split_ifs with h1 h2 h3 <;> push_cast <;> constructor <;> linarith

theorem le_halfEven_of_le (A : ℤ) (y : ℚ) (h : (A : ℚ) ≤ y) : A ≤ halfEven y := by
  have : A ≤ ⌊y⌋ := Int.le_floor.mpr h
  have := halfEven_ge_floor y
  omega

theorem halfEven_le_of_le (B : ℤ) (y : ℚ) (h : y ≤ (B : ℚ)) : halfEven y ≤ B := by
  have habs := abs_halfEven_sub y
  rw [abs_le] at habs
  have : (halfEven y : ℚ) ≤ B + 1/2 := by linarith [habs.2]
  have : (halfEven y : ℚ) < B + 1 := by linarith
  exact_mod_cast Int.lt_add_one_iff.mp (by exact_mod_cast this)

/-- `pyRound1` maps `[A, B]` into `[A, B]` when `A`, `B` are multiples of 1/10. -/
theorem pyRound1_mem_Icc (a b : ℤ) (x : ℚ)
    (h1 : (a : ℚ) / 10 ≤ x) (h2 : x ≤ (b : ℚ) / 10) :
    (a : ℚ) / 10 ≤ pyRound1 x ∧ pyRound1 x ≤ (b : ℚ) / 10 := by
  have hlo : (a : ℚ) ≤ x * 10 := by linarith
  have hhi : x * 10 ≤ (b : ℚ) := by linarith
  have h3 := le_halfEven_of_le a (x * 10) hlo
  have h4 := halfEven_le_of_le b (x * 10) hhi
  unfold pyRound1
  constructor
  · have : (a : ℚ) ≤ (halfEven (x * 10) : ℚ) := by exact_mod_cast h3
    linarith
  · have : ((halfEven (x * 10) : ℚ)) ≤ (b : ℚ) := by exact_mod_cast h4
    linarith

/-- `pyRound2` maps `[A, B]` into `[A, B]` when `A`, `B` are multiples of 1/100. -/
theorem pyRound2_mem_Icc (a b : ℤ) (x : ℚ)
    (h1 : (a : ℚ) / 100 ≤ x) (h2 : x ≤ (b : ℚ) / 100) :
    (a : ℚ) / 100 ≤ pyRound2 x ∧ pyRound2 x ≤ (b : ℚ) / 100 := by
  have hlo : (a : ℚ) ≤ x * 100 := by linarith
  have hhi : x * 100 ≤ (b : ℚ) := by linarith
  have h3 := le_halfEven_of_le a (x * 100) hlo
  have h4 := halfEven_le_of_le b (x * 100) hhi
  unfold pyRound2
  constructor
  · have : (a : ℚ) ≤ (halfEven (x * 100) : ℚ) := by exact_mod_cast h3
    linarith
  · have : ((halfEven (x * 100) : ℚ)) ≤ (b : ℚ) := by exact_mod_cast h4
    linarith

theorem abs_pyRound2_sub (x : ℚ) : |pyRound2 x - x| ≤ 1/200 := by
  have h := abs_halfEven_sub (x * 100)
  unfold pyRound2
  rw [abs_le] at h ⊢
  constructor <;> [linarith [h.1]; linarith [h.2]]

/-! ## Data model (spec §3, as realised in the source) -/

/-- Severity tier assigned by `calculate_alert_status` (the source uses the
strings `'normal' | 'warning' | 'alert' | 'critical'`). -/
inductive Severity
  | normal
  | warning
  | alert
  | critical
deriving DecidableEq, BEq, Fintype

/-- Binary alert flag written to the `alert_status` column (the source uses
the strings `'alert' | 'normal'`). -/
inductive AlertStatus
  | normal
  | alert
deriving DecidableEq, BEq

/-- `alert_sensitivity` values offered by the UI; the source keys its
`sensitivity_mapping` dictionary on exactly these four strings. -/
inductive Sensitivity
  | Low
  | Medium
  | High
  | Critical
deriving DecidableEq, BEq, Fintype

/-- Threshold configuration dictionary built by `setup_threshold_configuration`
and the per-zone sidebars.  Fields the classification logic never reads
(`data_quality_threshold`, sound/popup toggles) are omitted. -/
structure ThresholdConfig where
  temp_min : ℚ
  temp_max : ℚ
  warning_buffer : ℚ
  humidity_min : ℚ
  humidity_max : ℚ
  alert_sensitivity : Sensitivity
deriving DecidableEq

/-- One row of the readings dataframe as seen by the classifier: only the
`temperature` and `humidity` columns are consulted. -/
structure Reading where
  temperature : ℚ
  humidity : Option ℚ
deriving DecidableEq

/-- A classified row: the input columns plus the two columns the classifier
adds (`custom_alert_status`, `alert_status`). -/
structure ClassifiedReading where
  temperature : ℚ
  humidity : Option ℚ
  custom_alert_status : Severity
  alert_status : AlertStatus
deriving DecidableEq

/-! ## Alert classifier — `src/pages/Overview.py`, `apply_custom_alert_logic`
(lines 116-153) and its inner `calculate_alert_status` (lines 126-134). -/

/-- Inner `calculate_alert_status(temp, humidity=None)` of
`apply_custom_alert_logic` in `Overview.py`.  The `humidity` argument is
never read by the source body and is dropped here. -/
def calculate_alert_status (config : ThresholdConfig) (temp : ℚ) : Severity :=
  if temp < config.temp_min - config.warning_buffer * 2
      ∨ config.temp_max + config.warning_buffer * 2 < temp then .critical
  else if temp < config.temp_min - config.warning_buffer
      ∨ config.temp_max + config.warning_buffer < temp then .alert
  else if temp < config.temp_min ∨ config.temp_max < temp then .warning
  else .normal

/-- `sensitivity_mapping` dictionary of `apply_custom_alert_logic`
(`Overview.py`).  The source's `.get(..., ['critical', 'alert'])` default is
unreachable over the four-valued sensitivity enum. -/
def sensitivity_mapping : Sensitivity → List Severity
  | .Low => [.critical]
  | .Medium => [.critical, .alert]
  | .High => [.critical, .alert, .warning]
  | .Critical => [.critical, .alert, .warning]

/-- The `alert_status` column value: `'alert' if status in alert_triggers
else 'normal'` (`Overview.py`). -/
def alert_status_of (s : Sensitivity) (sev : Severity) : AlertStatus :=
  if (sensitivity_mapping s).contains sev then .alert else .normal

/-- `apply_custom_alert_logic(df, config)` of `Overview.py`: adds the
`custom_alert_status` and `alert_status` columns row by row.  The source's
early return on an empty dataframe coincides with mapping over `[]`. -/
def apply_custom_alert_logic (config : ThresholdConfig) (df : List Reading) :
    List ClassifiedReading :=
  df.map fun r =>
    let sev := calculate_alert_status config r.temperature
    { temperature := r.temperature
      humidity := r.humidity
      custom_alert_status := sev
      alert_status := alert_status_of config.alert_sensitivity sev }

/-- Numeric rank of the severity ordering `normal < warning < alert <
critical` (spec §8 "Monotonicity"). -/
def sevRank : Severity → ℕ
  | .normal => 0
  | .warning => 1
  | .alert => 2
  | .critical => 3

/-! ## Per-zone classifier copies — `src/pages/Z1-Freezer.py` (lines 207-244)
and `src/pages/Z4-Pharma.py` (lines 186-225).  Each page module carries its
own `apply_custom_alert_logic` with its own inner `calculate_alert_status`
and `sensitivity_mapping`. -/

/-- Inner `calculate_alert_status` of `apply_custom_alert_logic` in
`Z1-Freezer.py`: thresholds at 1x and 2x `warning_buffer`, as in
`Overview.py`. -/
def calculate_alert_status_z1 (config : ThresholdConfig) (temp : ℚ) : Severity :=
  if temp < config.temp_min - config.warning_buffer * 2
      ∨ config.temp_max + config.warning_buffer * 2 < temp then .critical
  else if temp < config.temp_min - config.warning_buffer
      ∨ config.temp_max + config.warning_buffer < temp then .alert
  else if temp < config.temp_min ∨ config.temp_max < temp then .warning
  else .normal

/-- Inner `calculate_alert_status` of `apply_custom_alert_logic` in
`Z4-Pharma.py`: "pharmaceutical-grade stricter thresholds" — the critical
band starts at 1.5x `warning_buffer` instead of 2x. -/
def calculate_alert_status_z4 (config : ThresholdConfig) (temp : ℚ) : Severity :=
  if temp < config.temp_min - config.warning_buffer * (3/2)
      ∨ config.temp_max + config.warning_buffer * (3/2) < temp then .critical
  else if temp < config.temp_min - config.warning_buffer
      ∨ config.temp_max + config.warning_buffer < temp then .alert
  else if temp < config.temp_min ∨ config.temp_max < temp then .warning
  else .normal

/-- `sensitivity_mapping` in `Z1-Freezer.py` (its `.get` default for strings
outside the enum is `['critical', 'alert']`). -/
def sensitivity_mapping_z1 : Sensitivity → List Severity
  | .Low => [.critical]
  | .Medium => [.critical, .alert]
  | .High => [.critical, .alert, .warning]
  | .Critical => [.critical, .alert, .warning]

/-- `sensitivity_mapping` in `Z4-Pharma.py` (its `.get` default for strings
outside the enum is `['critical', 'alert', 'warning']`). -/
def sensitivity_mapping_z4 : Sensitivity → List Severity
  | .Low => [.critical]
  | .Medium => [.critical, .alert]
  | .High => [.critical, .alert, .warning]
  | .Critical => [.critical, .alert, .warning]

/-- `alert_status` column computation in `Z1-Freezer.py`. -/
def alert_status_of_z1 (s : Sensitivity) (sev : Severity) : AlertStatus :=
  if (sensitivity_mapping_z1 s).contains sev then .alert else .normal

/-- `alert_status` column computation in `Z4-Pharma.py`. -/
def alert_status_of_z4 (s : Sensitivity) (sev : Severity) : AlertStatus :=
  if (sensitivity_mapping_z4 s).contains sev then .alert else .normal

/-- `apply_custom_alert_logic(df, config)` of `Z1-Freezer.py`. -/
def apply_custom_alert_logic_z1 (config : ThresholdConfig) (df : List Reading) :
    List ClassifiedReading :=
  df.map fun r =>
    let sev := calculate_alert_status_z1 config r.temperature
    { temperature := r.temperature
      humidity := r.humidity
      custom_alert_status := sev
      alert_status := alert_status_of_z1 config.alert_sensitivity sev }

/-- `apply_custom_alert_logic(df, config)` of `Z4-Pharma.py`. -/
def apply_custom_alert_logic_z4 (config : ThresholdConfig) (df : List Reading) :
    List ClassifiedReading :=
  df.map fun r =>
    let sev := calculate_alert_status_z4 config r.temperature
    { temperature := r.temperature
      humidity := r.humidity
      custom_alert_status := sev
      alert_status := alert_status_of_z4 config.alert_sensitivity sev }

/-! ## Cost estimator — `src/pages/overview.py`,
`calculate_cost_impact_metrics` (maintenance-cost branch, lines 578-586). -/

/-- `cost_config['maintenance_cost_multiplier']`: 20% higher maintenance for
poor performance. -/
def maintenance_cost_multiplier : ℚ := 12/10

/-- `base_maintenance_cost`: $200 base monthly maintenance per zone. -/
def base_maintenance_cost : ℚ := 200

/-- Maintenance-cost branch of `calculate_cost_impact_metrics`
(`overview.py` lines 578-586): no flooring of the result at 0 appears in the
source. -/
def excess_maintenance_cost (performance_score : ℚ) : ℚ :=
  if performance_score < 75 then
    base_maintenance_cost *
      (maintenance_cost_multiplier * (100 - performance_score) / 100 - 1)
  else 0

/-! ## Characterisation of the severity tiers -/

theorem cas_eq_critical_iff (c : ThresholdConfig) (t : ℚ) :
    calculate_alert_status c t = .critical ↔
      t < c.temp_min - c.warning_buffer * 2 ∨ c.temp_max + c.warning_buffer * 2 < t := by
  unfold calculate_alert_status
  split_ifs with h1 h2 h3 <;> simp_all

theorem cas_eq_alert_iff (c : ThresholdConfig) (t : ℚ) :
    calculate_alert_status c t = .alert ↔
      ((t < c.temp_min - c.warning_buffer ∨ c.temp_max + c.warning_buffer < t) ∧
       ¬(t < c.temp_min - c.warning_buffer * 2 ∨ c.temp_max + c.warning_buffer * 2 < t)) := by
  unfold calculate_alert_status
  split_ifs with h1 h2 h3 <;> simp_all

theorem cas_eq_warning_iff (c : ThresholdConfig) (t : ℚ)
    (hb : 0 ≤ c.warning_buffer) :
    calculate_alert_status c t = .warning ↔
      ((t < c.temp_min ∨ c.temp_max < t) ∧
       ¬(t < c.temp_min - c.warning_buffer ∨ c.temp_max + c.warning_buffer < t)) := by
  unfold calculate_alert_status
  split_ifs with h1 h2 h3
  · constructor
    · intro hx
      exact absurd hx (by simp)
    · rintro ⟨hout, hnb⟩
      exfalso
      rcases h1 with h | h
      · exact hnb (Or.inl (by linarith))
      · exact hnb (Or.inr (by linarith))
  · constructor
    · intro hx
      exact absurd hx (by simp)
    · rintro ⟨hout, hnb⟩
      exact absurd h2 hnb
  · exact ⟨fun _ => ⟨h3, h2⟩, fun _ => rfl⟩
  · constructor
    · intro hx
      exact absurd hx (by simp)
    · rintro ⟨hout, hnb⟩
      exact absurd hout h3

theorem cas_eq_normal_iff (c : ThresholdConfig) (t : ℚ)
    (hb : 0 ≤ c.warning_buffer) :
    calculate_alert_status c t = .normal ↔
      c.temp_min ≤ t ∧ t ≤ c.temp_max := by
  unfold calculate_alert_status
  split_ifs with h1 h2 h3
  · constructor
    · intro hx
      exact absurd hx (by simp)
    · rintro ⟨hlo, hhi⟩
      exfalso
      rcases h1 with h | h <;> linarith
  · constructor
    · intro hx
      exact absurd hx (by simp)
    · rintro ⟨hlo, hhi⟩
      exfalso
      rcases h2 with h | h <;> linarith
  · constructor
    · intro hx
      exact absurd hx (by simp)
    · rintro ⟨hlo, hhi⟩
      exfalso
      rcases h3 with h | h <;> linarith
  · push_neg at h3
    exact ⟨fun _ => ⟨h3.1, h3.2⟩, fun _ => rfl⟩

/-! ## Claim theorems for the classifier and the cost estimator -/

/-- C1: the cost estimator does NOT floor the excess maintenance cost at 0.
At `total_score = 50` the source computes
`200 * (1.2 * (100 - 50) / 100 - 1) = -80`, a negative cost, where the
specification requires the value to be floored to 0.  (The `total_score ≥ 75`
branch does return 0, as both code and claim state.) -/
theorem c1_excess_maintenance_cost_negative_at_50 :
    excess_maintenance_cost 50 = -80 ∧ excess_maintenance_cost 50 < 0 ∧
    excess_maintenance_cost 80 = 0 := by
  refine ⟨?_, ?_, ?_⟩ <;>
    norm_num [excess_maintenance_cost, base_maintenance_cost,
      maintenance_cost_multiplier]

/-- C2 counterexample: with `temp_min = 5 > 2 = temp_max` the classifier does
not reject the configuration — it classifies the reading (temperature 3)
normally, producing a classified reading with severity `alert` and
`alert_status` `alert` under Medium sensitivity. -/
theorem c2_counterexample_no_rejection :
    (5 : ℚ) > 2 ∧
    apply_custom_alert_logic ⟨5, 2, 1, 50, 70, .Medium⟩ [⟨3, none⟩] =
      [⟨3, none, .alert, .alert⟩] := by
  constructor
  · norm_num
  · have hsev : calculate_alert_status ⟨5, 2, 1, 50, 70, .Medium⟩ 3 = .alert := by
      unfold calculate_alert_status
      norm_num
    simp [apply_custom_alert_logic, hsev, alert_status_of, sensitivity_mapping]
    decide

/-- C2 (amended): the classifier performs no configuration validation — it is
a total function that classifies every reading under every configuration,
including `temp_min > temp_max`.  Under such an inverted band no reading is
ever classified `normal` (the optimal band is empty), but classification
still succeeds rather than raising an invalid-config error. -/
theorem c2_no_validation_inverted_band_never_normal
    (config : ThresholdConfig) (temp : ℚ)
    (h : config.temp_max < config.temp_min) :
    calculate_alert_status config temp ≠ Severity.normal := by
  unfold calculate_alert_status
  split_ifs with h1 h2 h3 <;> simp
  push_neg at h3
  linarith [h3.1, h3.2]

/-- Witness for `c2_no_validation_inverted_band_never_normal` at
`temp_min = 5 > 2 = temp_max`, temperature 3. -/
theorem c2_no_validation_witness :
    calculate_alert_status ⟨5, 2, 1, 50, 70, .Medium⟩ 3 ≠ Severity.normal :=
  c2_no_validation_inverted_band_never_normal ⟨5, 2, 1, 50, 70, .Medium⟩ 3
    (by norm_num)

/-- C3: under `temp_min ≤ temp_max` and `warning_buffer ≥ 0` the severity
tiers are exactly the claimed distance bands (critical beyond 2 buffers,
alert beyond 1 buffer but not critical, warning outside the band but not
alert/critical, normal inside the band); and for the freezer configuration
`{temp_min = -22, temp_max = -18, warning_buffer = 2}` a temperature of -17
is `warning` (alert flag off under Low, on under High) while -12 is
`critical` (alert flag on under every sensitivity). -/
theorem c3_severity_tier_bands :
    (∀ (c : ThresholdConfig) (t : ℚ),
      c.temp_min ≤ c.temp_max → 0 ≤ c.warning_buffer →
      ((calculate_alert_status c t = .critical ↔
          t < c.temp_min - c.warning_buffer * 2 ∨
          c.temp_max + c.warning_buffer * 2 < t) ∧
       (calculate_alert_status c t = .alert ↔
          ((t < c.temp_min - c.warning_buffer ∨ c.temp_max + c.warning_buffer < t) ∧
           ¬(t < c.temp_min - c.warning_buffer * 2 ∨
             c.temp_max + c.warning_buffer * 2 < t))) ∧
       (calculate_alert_status c t = .warning ↔
          ((t < c.temp_min ∨ c.temp_max < t) ∧
           ¬(t < c.temp_min - c.warning_buffer ∨
             c.temp_max + c.warning_buffer < t))) ∧
       (calculate_alert_status c t = .normal ↔
          c.temp_min ≤ t ∧ t ≤ c.temp_max))) ∧
    (calculate_alert_status ⟨-22, -18, 2, 50, 70, .Low⟩ (-17) = .warning ∧
     alert_status_of .Low .warning = .normal ∧
     alert_status_of .High .warning = .alert ∧
     calculate_alert_status ⟨-22, -18, 2, 50, 70, .Low⟩ (-12) = .critical ∧
     ∀ s, alert_status_of s .critical = .alert) := by
  constructor
  · intro c t hc hb
    exact ⟨cas_eq_critical_iff c t, cas_eq_alert_iff c t,
      cas_eq_warning_iff c t hb, cas_eq_normal_iff c t hb⟩
  · refine ⟨?_, by decide, by decide, ?_, by decide⟩
    · unfold calculate_alert_status
      norm_num
    · unfold calculate_alert_status
      norm_num

/-- Witness for `c3_severity_tier_bands`: instantiating the quantified part
at the freezer configuration and temperature -20 (inside the band) shows the
normal tier. -/
theorem c3_severity_tier_bands_witness :
    calculate_alert_status ⟨-22, -18, 2, 50, 70, .Low⟩ (-20) = .normal :=
  ((c3_severity_tier_bands.1 ⟨-22, -18, 2, 50, 70, .Low⟩ (-20) (by norm_num)
    (by norm_num)).2.2.2).mpr (by norm_num)

/-- C4: the sensitivity policy is monotone — the trigger set for Low is a
subset of Medium's, Medium's a subset of High's, and High's coincides with
Critical's; hence for any reading and configuration, an alert flag raised
under Low is also raised under Medium, and one raised under Medium is raised
under High and under Critical. -/
theorem c4_sensitivity_monotone (config : ThresholdConfig) (t : ℚ) :
    (∀ sev, sev ∈ sensitivity_mapping .Low → sev ∈ sensitivity_mapping .Medium) ∧
    (∀ sev, sev ∈ sensitivity_mapping .Medium → sev ∈ sensitivity_mapping .High) ∧
    sensitivity_mapping .High = sensitivity_mapping .Critical ∧
    (alert_status_of .Low (calculate_alert_status config t) = .alert →
      alert_status_of .Medium (calculate_alert_status config t) = .alert) ∧
    (alert_status_of .Medium (calculate_alert_status config t) = .alert →
      alert_status_of .High (calculate_alert_status config t) = .alert ∧
      alert_status_of .Critical (calculate_alert_status config t) = .alert) := by
  refine ⟨?_, ?_, by decide, ?_, ?_⟩
  · intro sev h
    fin_cases sev <;> simp_all [sensitivity_mapping]
  · intro sev h
    fin_cases sev <;> simp_all [sensitivity_mapping]
  · cases h : calculate_alert_status config t <;> decide
  · cases h : calculate_alert_status config t <;> decide

/-- Witness for `c4_sensitivity_monotone`: at the freezer configuration and
temperature -12 the Low-sensitivity flag is raised, so the theorem yields the
Medium-sensitivity flag. -/
theorem c4_sensitivity_monotone_witness :
    alert_status_of .Medium
      (calculate_alert_status ⟨-22, -18, 2, 50, 70, .Low⟩ (-12)) = .alert := by
  have hsev : calculate_alert_status ⟨-22, -18, 2, 50, 70, .Low⟩ (-12) =
      .critical := by
    unfold calculate_alert_status
    norm_num
  exact (c4_sensitivity_monotone ⟨-22, -18, 2, 50, 70, .Low⟩ (-12)).2.2.2.1
    (by rw [hsev]; decide)

/-! ## C7: severity is monotone in the distance from the nearest band bound -/

theorem sevRank_cas_above (c : ThresholdConfig) (t : ℚ)
    (hc : c.temp_min ≤ c.temp_max) (hb : 0 ≤ c.warning_buffer)
    (ht : c.temp_max ≤ t) :
    sevRank (calculate_alert_status c t) =
      if c.temp_max + c.warning_buffer * 2 < t then 3
      else if c.temp_max + c.warning_buffer < t then 2
      else if c.temp_max < t then 1 else 0 := by
  have hlo1 : ¬ t < c.temp_min - c.warning_buffer * 2 := by push_neg; linarith
  have hlo2 : ¬ t < c.temp_min - c.warning_buffer := by push_neg; linarith
  have hlo3 : ¬ t < c.temp_min := by push_neg; linarith
  unfold calculate_alert_status
  simp only [hlo1, hlo2, hlo3, false_or]
  split_ifs <;> simp [sevRank]

theorem sevRank_cas_below (c : ThresholdConfig) (t : ℚ)
    (hc : c.temp_min ≤ c.temp_max) (hb : 0 ≤ c.warning_buffer)
    (ht : t ≤ c.temp_min) :
    sevRank (calculate_alert_status c t) =
      if t < c.temp_min - c.warning_buffer * 2 then 3
      else if t < c.temp_min - c.warning_buffer then 2
      else if t < c.temp_min then 1 else 0 := by
  have hhi1 : ¬ c.temp_max + c.warning_buffer * 2 < t := by push_neg; linarith
  have hhi2 : ¬ c.temp_max + c.warning_buffer < t := by push_neg; linarith
  have hhi3 : ¬ c.temp_max < t := by push_neg; linarith
  unfold calculate_alert_status
  simp only [hhi1, hhi2, hhi3, or_false]
  split_ifs <;> simp [sevRank]

/-- C7: for `temp_min ≤ temp_max` and `warning_buffer ≥ 0`, and two
temperatures on the same side of the optimal band, increasing the distance
from the nearest bound never decreases the severity tier under the ordering
normal < warning < alert < critical.  Above the band the nearest bound is
`temp_max` and the distance grows with the temperature; below the band the
nearest bound is `temp_min` and the distance grows as the temperature
falls. -/
theorem c7_severity_monotone_in_distance (c : ThresholdConfig) (t1 t2 : ℚ)
    (hc : c.temp_min ≤ c.temp_max) (hb : 0 ≤ c.warning_buffer) :
    (c.temp_max ≤ t1 → t1 ≤ t2 →
      sevRank (calculate_alert_status c t1) ≤
        sevRank (calculate_alert_status c t2)) ∧
    (t1 ≤ c.temp_min → t2 ≤ t1 →
      sevRank (calculate_alert_status c t1) ≤
        sevRank (calculate_alert_status c t2)) := by
  constructor
  · intro h1 h12
    rw [sevRank_cas_above c t1 hc hb h1,
      sevRank_cas_above c t2 hc hb (by linarith)]
    split_ifs with a1 a2 a3 a4 a5 a6
    all_goals try simp only [not_lt] at *
    all_goals try norm_num
    all_goals linarith
  · intro h1 h12
    rw [sevRank_cas_below c t1 hc hb h1,
      sevRank_cas_below c t2 hc hb (by linarith)]
    split_ifs with a1 a2 a3 a4 a5 a6
    all_goals try simp only [not_lt] at *
    all_goals try norm_num
    all_goals linarith

/-- Witness for `c7_severity_monotone_in_distance`: at the freezer
configuration, moving from -17 (1 degree above the band) to -12 (6 degrees
above) does not decrease the severity rank. -/
theorem c7_severity_monotone_witness :
    sevRank (calculate_alert_status ⟨-22, -18, 2, 50, 70, .Low⟩ (-17)) ≤
      sevRank (calculate_alert_status ⟨-22, -18, 2, 50, 70, .Low⟩ (-12)) :=
  (c7_severity_monotone_in_distance ⟨-22, -18, 2, 50, 70, .Low⟩ (-17) (-12)
    (by norm_num) (by norm_num)).1 (by norm_num) (by norm_num)

/-! ## C10: the Z1-Freezer and Z4-Pharma classifier copies -/

/-- C10 counterexample: with `{temp_min = 2, temp_max = 8,
warning_buffer = 2}` and temperature 12 (beyond 1.5 buffers but not beyond 2
buffers above the band), the Z1-Freezer copy classifies `alert` while the
Z4-Pharma copy classifies `critical`; under Low sensitivity the two copies
also disagree on the binary alert status. -/
theorem c10_counterexample_copies_differ :
    calculate_alert_status_z1 ⟨2, 8, 2, 50, 60, .Low⟩ 12 = .alert ∧
    calculate_alert_status_z4 ⟨2, 8, 2, 50, 60, .Low⟩ 12 = .critical ∧
    calculate_alert_status_z1 ⟨2, 8, 2, 50, 60, .Low⟩ 12 ≠
      calculate_alert_status_z4 ⟨2, 8, 2, 50, 60, .Low⟩ 12 ∧
    alert_status_of_z1 .Low
      (calculate_alert_status_z1 ⟨2, 8, 2, 50, 60, .Low⟩ 12) = .normal ∧
    alert_status_of_z4 .Low
      (calculate_alert_status_z4 ⟨2, 8, 2, 50, 60, .Low⟩ 12) = .alert := by
  have h1 : calculate_alert_status_z1 ⟨2, 8, 2, 50, 60, .Low⟩ 12 = .alert := by
    unfold calculate_alert_status_z1
    norm_num
  have h4 : calculate_alert_status_z4 ⟨2, 8, 2, 50, 60, .Low⟩ 12 = .critical := by
    unfold calculate_alert_status_z4
    norm_num
  refine ⟨h1, h4, ?_, ?_, ?_⟩
  · rw [h1, h4]
    decide
  · rw [h1]
    decide
  · rw [h4]
    decide

/-- C10 (amended): the two per-zone classifier copies agree on the warning
and alert thresholds and on the sensitivity mapping, but differ in the
critical threshold (2 buffers in Z1-Freezer, 1.5 buffers in Z4-Pharma).
Consequently, for `warning_buffer ≥ 0`, the Z4-Pharma severity is always at
least the Z1-Freezer severity; the two severities agree except where
Z1-Freezer says `alert` and Z4-Pharma says `critical`; and any binary alert
flag raised by the Z1-Freezer copy is also raised by the Z4-Pharma copy
under the same sensitivity. -/
theorem c10_z1_z4_relationship (config : ThresholdConfig) (t : ℚ)
    (hb : 0 ≤ config.warning_buffer) :
    sevRank (calculate_alert_status_z1 config t) ≤
      sevRank (calculate_alert_status_z4 config t) ∧
    (calculate_alert_status_z1 config t ≠ calculate_alert_status_z4 config t →
      calculate_alert_status_z1 config t = .alert ∧
      calculate_alert_status_z4 config t = .critical) ∧
    (∀ s, alert_status_of_z1 s (calculate_alert_status_z1 config t) = .alert →
      alert_status_of_z4 s (calculate_alert_status_z4 config t) = .alert) := by
  unfold calculate_alert_status_z1 calculate_alert_status_z4
  split_ifs with h1 h2 h3 h4 h5 h6 h7 h8 h9 <;>
    first
      | decide
      | (exfalso
         simp only [not_or, not_lt] at *
         casesm* _ ∨ _ <;> linarith)

/-- Witness for `c10_z1_z4_relationship` at the pharma configuration and
temperature 12. -/
theorem c10_z1_z4_relationship_witness :
    sevRank (calculate_alert_status_z1 ⟨2, 8, 2, 50, 60, .Low⟩ 12) ≤
      sevRank (calculate_alert_status_z4 ⟨2, 8, 2, 50, 60, .Low⟩ 12) :=
  (c10_z1_z4_relationship ⟨2, 8, 2, 50, 60, .Low⟩ 12 (by norm_num)).1

/-! ## Performance scorer — `src/pages/Overview.py`,
`calculate_zone_performance_score` (lines 337-436). -/

/-- The four monitored zones. -/
inductive ZoneId
  | Z1Freezer
  | Z2Chiller
  | Z3Produce
  | Z4Pharma
deriving DecidableEq, BEq, Fintype

/-- Per-zone optimal ranges.  This table appears verbatim as `ZONE_RANGES`
in `live_data_generator.py` and as the local `zone_ranges` dictionaries of
`calculate_zone_performance_score` and `setup_threshold_configuration` in
`Overview.py` (their `.get` defaults are unreachable over the four-valued
zone enum). -/
structure ZoneRange where
  temp_min : ℚ
  temp_max : ℚ
  humidity_min : ℚ
  humidity_max : ℚ

def ZONE_RANGES : ZoneId → ZoneRange
  | .Z1Freezer => ⟨-22, -18, 50, 70⟩
  | .Z2Chiller => ⟨2, 5, 70, 80⟩
  | .Z3Produce => ⟨5, 10, 80, 95⟩
  | .Z4Pharma => ⟨2, 8, 50, 60⟩

/-- One row of the full readings dataframe as consumed by the scorer:
columns `zone_id`, `timestamp` (minutes since an arbitrary epoch),
`temperature`, `humidity` (possibly missing) and the `alert_status` column
previously added by `apply_custom_alert_logic`. -/
structure DataRow where
  zone_id : ZoneId
  timestamp : ℚ
  temperature : ℚ
  humidity : Option ℚ
  alert_status : AlertStatus
deriving DecidableEq

/-- The dictionary returned by `calculate_zone_performance_score`.  The
reporting-only `temp_stability` entry (`round(temp_std, 2)`) is omitted: it
is the square root of the sample variance, is never compared or reused, and
is the single irrational quantity of the function. -/
structure ZoneScore where
  total_score : ℚ
  temperature_score : ℚ
  alert_score : ℚ
  data_quality_score : ℚ
  efficiency_score : ℚ
  temp_compliance : ℚ
  alert_rate : ℚ
  data_freshness_minutes : ℚ
deriving DecidableEq

/-- Sample variance with one delta degree of freedom, the quantity computed
by pandas `.var()` (and whose square root pandas `.std()` returns). -/
def sampleVar (l : List ℚ) : ℚ :=
  let n : ℚ := l.length
  let mean := l.sum / n
  ((l.map fun x => (x - mean) ^ 2).sum) / (n - 1)

/-- `calculate_zone_performance_score(df, zone_id)` of `Overview.py`.
`now` is the evaluation instant (`datetime.now()`), in the same
minutes-scale as the row timestamps.

The stability and efficiency branches compare pandas `.std()` / `.var()`
against constants; `.std() ≤ c` is embedded as the equivalent
`sampleVar ≤ c^2` (both sides non-negative).  On a single-row window pandas
returns NaN for both statistics, and every NaN comparison is False, so such
windows fall through to the final branch: this is embedded by the
`2 ≤ recent.length` guard on every comparison.

The `recent.getLastD hd` default is never used: `recent` is non-empty
whenever `zone_data` is. -/
def calculate_zone_performance_score (df : List DataRow) (zone_id : ZoneId)
    (now : ℚ) : Option ZoneScore :=
  let zone_data := df.filter fun r => r.zone_id == zone_id
  match zone_data with
  | [] => none
  | hd :: tl =>
    let optimal_range := ZONE_RANGES zone_id
    let recent_data := (hd :: tl).drop ((hd :: tl).length - 50)
    let temp_readings := recent_data.map (·.temperature)
    let n : ℚ := recent_data.length
    let temp_var := sampleVar temp_readings
    let in_range_temps := (temp_readings.filter fun t =>
      decide (optimal_range.temp_min ≤ t) && decide (t ≤ optimal_range.temp_max)).length
    let temp_compliance := ((in_range_temps : ℚ) / n) * 100
    let stability_score : ℚ :=
      if 2 ≤ recent_data.length ∧ temp_var ≤ 1/4 then 40
      else if 2 ≤ recent_data.length ∧ temp_var ≤ 1 then 35
      else if 2 ≤ recent_data.length ∧ temp_var ≤ 4 then 25
      else 15
    let temp_score := stability_score * (temp_compliance / 100)
    let alert_count := (recent_data.filter fun r =>
      r.alert_status == AlertStatus.alert).length
    let alert_rate := ((alert_count : ℚ) / n) * 100
    let alert_score : ℚ :=
      if alert_rate = 0 then 30
      else if alert_rate ≤ 5 then 25
      else if alert_rate ≤ 15 then 15
      else if alert_rate ≤ 30 then 8
      else 2
    let missing_humidity := (recent_data.filter fun r => r.humidity.isNone).length
    let missing_data_penalty := min (((missing_humidity : ℚ) / n) * 20) 10
    let latest_reading := (recent_data.getLastD hd).timestamp
    let time_diff := now - latest_reading
    let freshness_score : ℚ :=
      if time_diff ≤ 5 then 10
      else if time_diff ≤ 30 then 7
      else if time_diff ≤ 60 then 4
      else 1
    let data_quality_score := max 0 (min 20 (20 - missing_data_penalty + freshness_score))
    let efficiency_score : ℚ :=
      if 2 ≤ recent_data.length ∧ temp_var ≤ 1 then 10
      else if 2 ≤ recent_data.length ∧ temp_var ≤ 4 then 7
      else if 2 ≤ recent_data.length ∧ temp_var ≤ 9 then 4
      else 1
    let total_score := temp_score + alert_score + data_quality_score + efficiency_score
    let total_score := max 0 (min 100 total_score)
    some
      { total_score := pyRound1 total_score
        temperature_score := pyRound1 temp_score
        alert_score := pyRound1 alert_score
        data_quality_score := pyRound1 data_quality_score
        efficiency_score := pyRound1 efficiency_score
        temp_compliance := pyRound1 temp_compliance
        alert_rate := pyRound1 alert_rate
        data_freshness_minutes := pyRound1 time_diff }

theorem clamp_round_bounds (x : ℚ) :
    0 ≤ pyRound1 (max 0 (min 100 x)) ∧ pyRound1 (max 0 (min 100 x)) ≤ 100 := by
  have h1 : (0 : ℚ) ≤ max 0 (min 100 x) := le_max_left 0 _
  have h2 : max 0 (min 100 x) ≤ 100 := max_le (by norm_num) (min_le_left _ _)
  have h := pyRound1_mem_Icc 0 1000 (max 0 (min 100 x))
    (by push_cast; linarith) (by push_cast; linarith)
  constructor
  · have := h.1
    push_cast at this
    linarith
  · have := h.2
    push_cast at this
    linarith

/-- C5: for every dataframe whose rows for the requested zone are non-empty
(any window contents, any zone, any evaluation instant), the scorer returns
a score and its `total_score` lies in [0, 100]. -/
theorem c5_total_score_in_0_100 (df : List DataRow) (zone_id : ZoneId)
    (now : ℚ) (h : df.filter (fun r => r.zone_id == zone_id) ≠ []) :
    ∃ s, calculate_zone_performance_score df zone_id now = some s ∧
      0 ≤ s.total_score ∧ s.total_score ≤ 100 := by
  unfold calculate_zone_performance_score
  rcases hz : df.filter (fun r => r.zone_id == zone_id) with _ | ⟨hd, tl⟩
  · exact absurd hz h
  · simp only [hz]
    exact ⟨_, rfl, clamp_round_bounds _⟩

/-- Witness for `c5_total_score_in_0_100`: a one-row freezer window. -/
theorem c5_total_score_witness :
    ∃ s, calculate_zone_performance_score
        [⟨.Z1Freezer, 0, -20, none, .normal⟩] .Z1Freezer 0 = some s ∧
      0 ≤ s.total_score ∧ s.total_score ≤ 100 :=
  c5_total_score_in_0_100 [⟨.Z1Freezer, 0, -20, none, .normal⟩] .Z1Freezer 0
    (by decide)

/-- C6: the scorer returns `None` exactly when the zone's window is empty —
an empty window yields no score (never a fabricated 0, and the function is
total so it never crashes), and a `ZoneScore` is produced only for non-empty
windows. -/
theorem c6_empty_window_none (df : List DataRow) (zone_id : ZoneId) (now : ℚ) :
    calculate_zone_performance_score df zone_id now = none ↔
      df.filter (fun r => r.zone_id == zone_id) = [] := by
  unfold calculate_zone_performance_score
  rcases hz : df.filter (fun r => r.zone_id == zone_id) with _ | ⟨hd, tl⟩ <;>
    simp [hz]

/-! ## Reading generator — `src/live_data_generator.py`,
`generate_realistic_value` (lines 65-102) and `generate_data`
(lines 104-168).  Randomness is modelled by passing every random draw as an
explicit input. -/

/-- The random draws consumed by one `generate_realistic_value` call. -/
structure GenDraws where
  /-- `np.random.uniform(target_min, target_max)`, used when there is no
  previous value. -/
  initial : ℚ
  /-- `np.random.normal(0, max_drift * 0.3)`. -/
  drift : ℚ
  /-- first `np.random.rand()`, compared against `violation_chance`. -/
  violation_roll : ℚ
  /-- second `np.random.rand()`, compared against 0.5 to pick the side. -/
  side_roll : ℚ
  /-- `np.random.uniform(0.5, 2.0)`, the violation distance. -/
  violation_amount : ℚ
  /-- `np.random.uniform(0, 1.0)`, the gentle pull-back distance. -/
  pullback : ℚ
deriving DecidableEq

/-- `generate_realistic_value(current_val, target_min, target_max,
max_drift, violation_chance=0.08)`.  The source's unused `target_center`
computation is dropped. -/
def generate_realistic_value (current_val : Option ℚ)
    (target_min target_max max_drift violation_chance : ℚ)
    (d : GenDraws) : ℚ :=
  match current_val with
  | none => pyRound2 d.initial
  | some cv =>
    let new_val := cv + d.drift
    let new_val :=
      if d.violation_roll < violation_chance then
        if d.side_roll < 1/2 then target_min - d.violation_amount
        else target_max + d.violation_amount
      else
        if new_val < target_min then target_min + d.pullback
        else if target_max < new_val then target_max - d.pullback
        else new_val
    let new_val :=
      if max_drift < |new_val - cv| then
        if cv < new_val then cv + max_drift else cv - max_drift
      else new_val
    pyRound2 new_val

/-- `MAX_TEMP_DRIFT = 1.0`. -/
def MAX_TEMP_DRIFT : ℚ := 1

/-- `MAX_HUMIDITY_DRIFT = 3.0`. -/
def MAX_HUMIDITY_DRIFT : ℚ := 3

/-- A zone's entry of the `last_values` dictionary built by
`get_last_values` (always carries both fields when present). -/
structure LastValue where
  temperature : ℚ
  humidity : ℚ
deriving DecidableEq

/-- The draws consumed for one zone inside `generate_data`. -/
structure ZoneDraws where
  temp : GenDraws
  humidity : GenDraws
deriving DecidableEq

/-- One element of the list returned by `generate_data`.  The timestamp and
the two human-readable threshold strings are omitted: they are string
formatting only. -/
structure DataPoint where
  zone_id : ZoneId
  temperature : ℚ
  humidity : ℚ
deriving DecidableEq

/-- Loop body of `generate_data` for one zone.  `daily_variation` is the
value of `np.sin((hour / 24) * 2 * np.pi) * 0.3`, passed in explicitly
(the sine is the only non-rational quantity; no bound on it is needed
because the safety clamps come afterwards). -/
def generate_zone_point (zone_id : ZoneId) (prev : Option LastValue)
    (daily_variation : ℚ) (d : ZoneDraws) : DataPoint :=
  let ranges := ZONE_RANGES zone_id
  let prev_temp := prev.map (·.temperature)
  let prev_humidity := prev.map (·.humidity)
  let temp := generate_realistic_value prev_temp ranges.temp_min
    ranges.temp_max MAX_TEMP_DRIFT (8/100) d.temp
  let temp := temp + daily_variation
  let humidity_adjustment : ℚ :=
    match prev_temp with
    | none => 0
    | some pt => -(temp - pt) * 2
  let humidity := generate_realistic_value prev_humidity ranges.humidity_min
    ranges.humidity_max MAX_HUMIDITY_DRIFT (8/100) d.humidity
  let humidity := humidity + humidity_adjustment
  let humidity := max 0 (min 100 humidity)
  let humidity := pyRound2 humidity
  let temp :=
    if zone_id == ZoneId.Z1Freezer then max (-35) (min (-10) temp)
    else max (-10) (min 25 temp)
  let temp := pyRound2 temp
  { zone_id := zone_id, temperature := temp, humidity := humidity }

/-- `generate_data(last_values)`: one data point per zone, in the fixed
iteration order of `ZONE_RANGES`. -/
def generate_data (last_values : ZoneId → Option LastValue)
    (daily_variation : ℚ) (draws : ZoneId → ZoneDraws) : List DataPoint :=
  [ZoneId.Z1Freezer, .Z2Chiller, .Z3Produce, .Z4Pharma].map fun z =>
    generate_zone_point z (last_values z) daily_variation (draws z)

theorem halfEven_intCast (n : ℤ) : halfEven (n : ℚ) = n := by
  unfold halfEven
  rw [Int.floor_intCast]
  norm_num

theorem pyRound2_clamp_humidity (x : ℚ) :
    0 ≤ pyRound2 (max 0 (min 100 x)) ∧ pyRound2 (max 0 (min 100 x)) ≤ 100 := by
  have h1 : (0 : ℚ) ≤ max 0 (min 100 x) := le_max_left 0 _
  have h2 : max 0 (min 100 x) ≤ 100 := max_le (by norm_num) (min_le_left _ _)
  have h := pyRound2_mem_Icc 0 10000 (max 0 (min 100 x))
    (by push_cast; linarith) (by push_cast; linarith)
  constructor
  · have := h.1
    push_cast at this
    linarith
  · have := h.2
    push_cast at this
    linarith

theorem pyRound2_clamp_freezer (x : ℚ) :
    -35 ≤ pyRound2 (max (-35) (min (-10) x)) ∧
      pyRound2 (max (-35) (min (-10) x)) ≤ -10 := by
  have h1 : (-35 : ℚ) ≤ max (-35) (min (-10) x) := le_max_left _ _
  have h2 : max (-35) (min (-10) x) ≤ -10 := max_le (by norm_num) (min_le_left _ _)
  have h := pyRound2_mem_Icc (-3500) (-1000) (max (-35) (min (-10) x))
    (by push_cast; linarith) (by push_cast; linarith)
  constructor
  · have := h.1
    push_cast at this
    linarith
  · have := h.2
    push_cast at this
    linarith

theorem pyRound2_clamp_other (x : ℚ) :
    -10 ≤ pyRound2 (max (-10) (min 25 x)) ∧
      pyRound2 (max (-10) (min 25 x)) ≤ 25 := by
  have h1 : (-10 : ℚ) ≤ max (-10) (min 25 x) := le_max_left _ _
  have h2 : max (-10) (min 25 x) ≤ 25 := max_le (by norm_num) (min_le_left _ _)
  have h := pyRound2_mem_Icc (-1000) 2500 (max (-10) (min 25 x))
    (by push_cast; linarith) (by push_cast; linarith)
  constructor
  · have := h.1
    push_cast at this
    linarith
  · have := h.2
    push_cast at this
    linarith

theorem generate_zone_point_bounds (zone_id : ZoneId) (prev : Option LastValue)
    (daily_variation : ℚ) (d : ZoneDraws) :
    (0 ≤ (generate_zone_point zone_id prev daily_variation d).humidity ∧
      (generate_zone_point zone_id prev daily_variation d).humidity ≤ 100) ∧
    (zone_id = .Z1Freezer →
      -35 ≤ (generate_zone_point zone_id prev daily_variation d).temperature ∧
      (generate_zone_point zone_id prev daily_variation d).temperature ≤ -10) ∧
    (zone_id ≠ .Z1Freezer →
      -10 ≤ (generate_zone_point zone_id prev daily_variation d).temperature ∧
      (generate_zone_point zone_id prev daily_variation d).temperature ≤ 25) := by
  cases zone_id
  · simp only [generate_zone_point]
    exact ⟨pyRound2_clamp_humidity _, fun _ => pyRound2_clamp_freezer _,
      fun h => absurd rfl h⟩
  · simp only [generate_zone_point]
    exact ⟨pyRound2_clamp_humidity _, fun h => absurd h (by decide),
      fun _ => pyRound2_clamp_other _⟩
  · simp only [generate_zone_point]
    exact ⟨pyRound2_clamp_humidity _, fun h => absurd h (by decide),
      fun _ => pyRound2_clamp_other _⟩
  · simp only [generate_zone_point]
    exact ⟨pyRound2_clamp_humidity _, fun h => absurd h (by decide),
      fun _ => pyRound2_clamp_other _⟩

/-- C9: whatever the last known values (including zones with no previous
reading) and whatever the random draws and daily sinusoidal bias, every data
point produced by `generate_data` carries definite rational values with
humidity in [0, 100], the Z1-Freezer temperature in the hard safety bounds
[-35, -10], and every other zone's temperature in [-10, 25].  (Absence of
NaN/missing values is built into the embedding: both fields are total
rational numbers.) -/
theorem c9_generate_data_bounds (last_values : ZoneId → Option LastValue)
    (daily_variation : ℚ) (draws : ZoneId → ZoneDraws) :
    ∀ p ∈ generate_data last_values daily_variation draws,
      (0 ≤ p.humidity ∧ p.humidity ≤ 100) ∧
      (p.zone_id = .Z1Freezer →
        -35 ≤ p.temperature ∧ p.temperature ≤ -10) ∧
      (p.zone_id ≠ .Z1Freezer →
        -10 ≤ p.temperature ∧ p.temperature ≤ 25) := by
  intro p hp
  simp only [generate_data, List.map, List.mem_cons, List.not_mem_nil,
    or_false] at hp
  rcases hp with h | h | h | h <;> subst h <;>
    exact generate_zone_point_bounds _ _ _ _

/-- Witness for `c9_generate_data_bounds`: the freezer point generated with
no previous values and all-zero draws. -/
theorem c9_generate_data_bounds_witness :
    (0 ≤ (generate_zone_point .Z1Freezer none 0 ⟨⟨0,0,0,0,0,0⟩, ⟨0,0,0,0,0,0⟩⟩).humidity ∧
      (generate_zone_point .Z1Freezer none 0 ⟨⟨0,0,0,0,0,0⟩, ⟨0,0,0,0,0,0⟩⟩).humidity ≤ 100) ∧
    ((generate_zone_point .Z1Freezer none 0 ⟨⟨0,0,0,0,0,0⟩, ⟨0,0,0,0,0,0⟩⟩).zone_id = .Z1Freezer →
      -35 ≤ (generate_zone_point .Z1Freezer none 0 ⟨⟨0,0,0,0,0,0⟩, ⟨0,0,0,0,0,0⟩⟩).temperature ∧
      (generate_zone_point .Z1Freezer none 0 ⟨⟨0,0,0,0,0,0⟩, ⟨0,0,0,0,0,0⟩⟩).temperature ≤ -10) ∧
    ((generate_zone_point .Z1Freezer none 0 ⟨⟨0,0,0,0,0,0⟩, ⟨0,0,0,0,0,0⟩⟩).zone_id ≠ .Z1Freezer →
      -10 ≤ (generate_zone_point .Z1Freezer none 0 ⟨⟨0,0,0,0,0,0⟩, ⟨0,0,0,0,0,0⟩⟩).temperature ∧
      (generate_zone_point .Z1Freezer none 0 ⟨⟨0,0,0,0,0,0⟩, ⟨0,0,0,0,0,0⟩⟩).temperature ≤ 25) :=
  c9_generate_data_bounds (fun _ => none) 0 (fun _ => ⟨⟨0,0,0,0,0,0⟩, ⟨0,0,0,0,0,0⟩⟩)
    (generate_zone_point .Z1Freezer none 0 ⟨⟨0,0,0,0,0,0⟩, ⟨0,0,0,0,0,0⟩⟩)
    (by simp [generate_data])

theorem pyRound2_within (x current max_drift : ℚ) (k m : ℤ)
    (hk : current = (k : ℚ) / 100) (hm : max_drift = (m : ℚ) / 100)
    (h : |x - current| ≤ max_drift) :
    |pyRound2 x - current| ≤ max_drift := by
  rw [abs_le] at h ⊢
  subst hk hm
  have h1 := le_halfEven_of_le (k - m) (x * 100) (by push_cast; linarith [h.1])
  have h2 := halfEven_le_of_le (k + m) (x * 100) (by push_cast; linarith [h.2])
  have h1' : ((k : ℚ) - m) ≤ (halfEven (x * 100) : ℚ) := by exact_mod_cast h1
  have h2' : (halfEven (x * 100) : ℚ) ≤ (k : ℚ) + m := by exact_mod_cast h2
  unfold pyRound2
  constructor <;> linarith

/-- C8 counterexample: the violation draw fires (roll 0 < chance 0.08)
toward the lower bound with violation amount 1.5, so the override value is
`target_min - 1.5 = 0.5`; but the per-step clamp (previous value 4,
max_drift 1) takes precedence and the returned value is 3 — inside the
optimal range [2, 5], not between 0.1 and 3.0 units beyond a bound. -/
theorem c8_counterexample_clamp_overrides_violation :
    generate_realistic_value (some 4) 2 5 1 (8/100) ⟨0, 0, 0, 0, 3/2, 0⟩ = 3 ∧
    ¬(generate_realistic_value (some 4) 2 5 1 (8/100) ⟨0, 0, 0, 0, 3/2, 0⟩
        ≤ 2 - 1/10 ∨
      5 + 1/10 ≤
        generate_realistic_value (some 4) 2 5 1 (8/100) ⟨0, 0, 0, 0, 3/2, 0⟩) := by
  have habs : |(2 - 3/2 : ℚ) - 4| = 7/2 := by
    rw [abs_of_neg (by norm_num)]
    norm_num
  have hres : generate_realistic_value (some 4) 2 5 1 (8/100)
      ⟨0, 0, 0, 0, 3/2, 0⟩ = pyRound2 3 := by
    simp only [generate_realistic_value]
    norm_num [habs]
    rw [abs_of_pos (by norm_num : (0:ℚ) < 7/2)]
    norm_num
  have h3 : pyRound2 3 = 3 := by
    have : ((3 : ℚ) * 100) = ((300 : ℤ) : ℚ) := by norm_num
    unfold pyRound2
    rw [this, halfEven_intCast]
    norm_num
  rw [hres, h3]
  norm_num

/-- C8 (amended): when the violation draw fires, the walk is overridden to
land exactly `violation_amount ∈ [0.5, 2.0]` units beyond the randomly
chosen optimal bound — a sub-interval of the claimed [0.1, 3.0] — and the
per-step clamp is applied afterwards.  Provided the override lies within
`max_drift` of the previous value (so that the clamp does not take
precedence, the situation the counterexample exhibits), the returned value
lands between 0.1 and 3.0 units beyond the chosen bound (the 2-decimal
rounding moves it by at most 1/200); and for previous value and drift cap
representable at the generator's 2-decimal precision, the returned value
stays within `max_drift` of the previous value. -/
theorem c8_violation_branch_beyond_bound
    (current target_min target_max max_drift violation_chance : ℚ)
    (d : GenDraws)
    (hviol : d.violation_roll < violation_chance)
    (hamt1 : 1/2 ≤ d.violation_amount) (hamt2 : d.violation_amount ≤ 2)
    (hclamp : |(if d.side_roll < 1/2 then target_min - d.violation_amount
        else target_max + d.violation_amount) - current| ≤ max_drift)
    (hcur : ∃ k : ℤ, current = (k : ℚ) / 100)
    (hdrift : ∃ m : ℤ, max_drift = (m : ℚ) / 100) :
    (d.side_roll < 1/2 →
      target_min - 3 ≤ generate_realistic_value (some current) target_min
          target_max max_drift violation_chance d ∧
      generate_realistic_value (some current) target_min target_max
          max_drift violation_chance d ≤ target_min - 1/10) ∧
    (¬ d.side_roll < 1/2 →
      target_max + 1/10 ≤ generate_realistic_value (some current) target_min
          target_max max_drift violation_chance d ∧
      generate_realistic_value (some current) target_min target_max
          max_drift violation_chance d ≤ target_max + 3) ∧
    |generate_realistic_value (some current) target_min target_max
        max_drift violation_chance d - current| ≤ max_drift := by
  obtain ⟨k, hk⟩ := hcur
  obtain ⟨m, hm⟩ := hdrift
  have hres : generate_realistic_value (some current) target_min target_max
      max_drift violation_chance d =
      pyRound2 (if d.side_roll < 1/2 then target_min - d.violation_amount
        else target_max + d.violation_amount) := by
    simp only [generate_realistic_value]
    rw [if_pos hviol, if_neg (not_lt.mpr hclamp)]
  refine ⟨?_, ?_, ?_⟩
  · intro hside
    rw [hres, if_pos hside]
    rw [if_pos hside] at hclamp
    have habs := abs_pyRound2_sub (target_min - d.violation_amount)
    rw [abs_le] at habs
    constructor <;> linarith [habs.1, habs.2]
  · intro hside
    rw [hres, if_neg hside]
    rw [if_neg hside] at hclamp
    have habs := abs_pyRound2_sub (target_max + d.violation_amount)
    rw [abs_le] at habs
    constructor <;> linarith [habs.1, habs.2]
  · rw [hres]
    exact pyRound2_within _ _ _ k m hk hm hclamp

/-- Witness for `c8_violation_branch_beyond_bound`: previous value 2,
range [2, 5], max_drift 1, violation toward the lower bound with amount 0.5
(override 1.5, within one drift step of the previous value). -/
theorem c8_violation_branch_witness :
    (2 : ℚ) - 3 ≤ generate_realistic_value (some 2) 2 5 1 (8/100)
        ⟨0, 0, 0, 0, 1/2, 0⟩ ∧
      generate_realistic_value (some 2) 2 5 1 (8/100)
        ⟨0, 0, 0, 0, 1/2, 0⟩ ≤ 2 - 1/10 :=
  (c8_violation_branch_beyond_bound 2 2 5 1 (8/100) ⟨0, 0, 0, 0, 1/2, 0⟩
    (by norm_num) (by norm_num) (by norm_num)
    (by rw [if_pos (by norm_num : (0:ℚ) < 1/2)]
        rw [abs_of_neg (by norm_num)]
        norm_num)
    ⟨200, by norm_num⟩ ⟨100, by norm_num⟩).1 (by norm_num)
